import Mathlib

/-!
Shallow embedding of the acquisitions user-management API
(services, controllers, validation schema, JWT wrapper) and
verification of its specification claims.

The database is modelled as a list of rows; bcrypt hashing and
comparison, and the zod email-format check, are external library
collaborators and appear as function parameters; errors carry the
JavaScript message string and the optional ad hoc code tag, exactly
mirroring the `new Error(msg)` / `error.code = ...` pattern in the
source.
-/

namespace Acq

/-- A row of the users table (src/models/user.model.js): id, name, email,
stored password hash, role, createdAt, updatedAt. -/
structure UserRow where
  id : Nat
  name : String
  email : String
  password : String
  role : String
  createdAt : Nat
  updatedAt : Nat
deriving DecidableEq, Repr

/-- The database state: the users table. -/
abbrev Store := List UserRow

/-- A JSON field value in an API response object. -/
inductive Value where
  | str (s : String)
  | num (n : Nat)
deriving DecidableEq, Repr

/-- A JSON object serialized into an API response, as an ordered list of
key-value fields, mirroring the JavaScript object literals in the source. -/
abbrev Obj := List (String × Value)

/-- A thrown JavaScript Error: its message and the optional ad hoc
code tag the source attaches (error.code = ...). -/
structure JsError where
  message : String
  code : Option String
deriving DecidableEq, Repr

/-- The error thrown on both sign-in failure paths
(auth.service.js lines 52-63). -/
def invalidCredentialsErr : JsError :=
  ⟨"Invalid email or password", some "INVALID_CREDENTIALS"⟩

/-- The error thrown when no user row matches an id
(users.service.js). -/
def userNotFoundErr : JsError :=
  ⟨"User not found", some "USER_NOT_FOUND"⟩

/-- db.select().from(users).where(eq(users.email, email)).limit(1):
first row whose email column equals the given email. -/
def findByEmail (st : Store) (email : String) : Option UserRow :=
  st.find? (fun u => u.email == email)

/-- db.select(...).from(users).where(eq(users.id, id)).limit(1):
first row whose id column equals the given id. -/
def findById (st : Store) (id : Nat) : Option UserRow :=
  st.find? (fun u => u.id == id)

/-- The full-column DTO selected by the users service
(id, name, email, role, createdAt, updatedAt - no password column). -/
def userDTO (u : UserRow) : Obj :=
  [("id", .num u.id), ("name", .str u.name), ("email", .str u.email),
   ("role", .str u.role), ("createdAt", .num u.createdAt),
   ("updatedAt", .num u.updatedAt)]

/-- Input to sign-up after validation: name, email, password, optional role
(signupSchema marks role optional; absent role arrives as undefined). -/
structure SignupInput where
  name : String
  email : String
  password : String
  role : Option String
deriving DecidableEq, Repr

namespace AuthService

/-- createUser (auth.service.js lines 16-42), body of the try block:
look up the email; if a row exists throw
Error('User with this email already exists'); otherwise hash the
password (bcrypt modelled by the hash parameter), insert the row with
role defaulting to 'user', and return the
{id, name, email, role} DTO from the insert's returning clause.
fresh is the id the store assigns to the new row. -/
def createUserBody (hash : String → String) (fresh : Nat) (st : Store)
    (inp : SignupInput) : Except JsError (Obj × Store) :=
  match findByEmail st inp.email with
  | some _ => .error ⟨"User with this email already exists", none⟩
  | none =>
    let role := inp.role.getD "user"
    let hashed := hash inp.password
    let row : UserRow :=
      ⟨fresh, inp.name, inp.email, hashed, role, 0, 0⟩
    .ok ([("id", .num fresh), ("name", .str inp.name),
          ("email", .str inp.email), ("role", .str role)],
         st ++ [row])

/-- createUser with its catch block (auth.service.js lines 38-41): every
error thrown inside the try - including the duplicate-email error - is
caught, logged, and replaced by a fresh generic
Error('Failed to create user') with no code tag. -/
def createUser (hash : String → String) (fresh : Nat) (st : Store)
    (inp : SignupInput) : Except JsError (Obj × Store) :=
  match createUserBody hash fresh st inp with
  | .ok r => .ok r
  | .error _ => .error ⟨"Failed to create user", none⟩

/-- signIn (auth.service.js lines 44-76), body of the try block: look up
the email; if no row, throw invalidCredentialsErr; compare the password
against the stored hash (bcrypt.compare modelled by the cmp parameter);
on mismatch throw the same invalidCredentialsErr; on success return the
row with the password field removed by rest-spread. -/
def signInBody (cmp : String → String → Bool) (st : Store)
    (email password : String) : Except JsError Obj :=
  match findByEmail st email with
  | none => .error invalidCredentialsErr
  | some user =>
    if cmp password user.password then .ok (userDTO user)
    else .error invalidCredentialsErr

/-- signIn with its catch block (auth.service.js lines 68-75): an error
whose code is INVALID_CREDENTIALS is rethrown unchanged; any other error
is replaced by a generic Error('Failed to sign in'). -/
def signIn (cmp : String → String → Bool) (st : Store)
    (email password : String) : Except JsError Obj :=
  match signInBody cmp st email password with
  | .ok r => .ok r
  | .error e =>
    if e.code == some "INVALID_CREDENTIALS" then .error e
    else .error ⟨"Failed to sign in", none⟩

end AuthService

namespace AuthController

/-- Outcome of the signup controller after validation has passed:
201 created with the user DTO, 409 Email already in use, or the error
forwarded to the global handler via next(err) (an unclassified failure,
surfaced as 500). -/
inductive SignupOutcome where
  | created (user : Obj)
  | emailInUse
  | forwarded (e : JsError)
deriving DecidableEq, Repr

/-- The HTTP status each signup outcome produces. -/
def SignupOutcome.status : SignupOutcome → Nat
  | .created _ => 201
  | .emailInUse => 409
  | .forwarded _ => 500

/-- signup controller (auth.controller.js lines 8-50), after the
signupSchema validation gate: call createUser; on success respond 201
with the user DTO (token signing and cookie setting are orthogonal side
effects, modelled in the JWT section); on a caught error respond 409
when the message is exactly 'User with this email already exists', and
otherwise forward the error with next(err). -/
def signup (hash : String → String) (fresh : Nat) (st : Store)
    (inp : SignupInput) : SignupOutcome × Store :=
  match AuthService.createUser hash fresh st inp with
  | .ok (user, st') => (.created user, st')
  | .error e =>
    if e.message == "User with this email already exists" then
      (.emailInUse, st)
    else (.forwarded e, st)

/-- Outcome of the sign-in controller after validation has passed:
200 with the user DTO, 401 Invalid email or password, or the error
forwarded via next(err). -/
inductive SignInOutcome where
  | okUser (user : Obj)
  | invalidCredentials
  | forwarded (e : JsError)
deriving DecidableEq, Repr

/-- signIn controller (auth.controller.js lines 52-84), after the
signInSchema validation gate: call the signIn service; on success
respond 200 with the user; on a caught error respond 401 when the code
is INVALID_CREDENTIALS or the message is 'Invalid email or password',
and otherwise forward the error. -/
def signIn (cmp : String → String → Bool) (st : Store)
    (email password : String) : SignInOutcome :=
  match AuthService.signIn cmp st email password with
  | .ok user => .okUser user
  | .error e =>
    if e.code == some "INVALID_CREDENTIALS"
        || e.message == "Invalid email or password" then
      .invalidCredentials
    else .forwarded e

end AuthController

/-- A parsed update payload (bodyValidation.data): the optional
name/email/role fields. A some value models a field present as a string
in the JSON body (typeof updates.x === 'string'). -/
structure UpdatePayload where
  name : Option String
  email : Option String
  role : Option String
deriving DecidableEq, Repr

namespace UsersService

/-- getAllUsers (users.service.js lines 7-26): select the six
non-password columns of every row. -/
def getAllUsers (st : Store) : List Obj :=
  st.map userDTO

/-- getUserById (users.service.js lines 29-63): select the six
non-password columns of the row with the given id, throwing
Error('User not found') with code USER_NOT_FOUND when no row matches
(the catch block rethrows exactly that error). -/
def getUserById (st : Store) (id : Nat) : Except JsError Obj :=
  match findById st id with
  | none => .error userNotFoundErr
  | some u => .ok (userDTO u)

/-- The drizzle set(updateData) applied to a row: overwrite exactly the
supplied fields of updateData, keep the rest. -/
def applyUpdate (u : UserRow) (upd : UpdatePayload) : UserRow :=
  { u with
    name := upd.name.getD u.name,
    email := upd.email.getD u.email,
    role := upd.role.getD u.role }

/-- updateUser (users.service.js lines 66-123): check the id exists,
throwing the USER_NOT_FOUND error otherwise; collect into updateData the
name/email/role fields present as strings; when updateData is empty
re-fetch the row via getUserById and return it unchanged; otherwise run
the update with the where clause on the id and return the refreshed
six-column DTO from the returning clause. The returned row is the
updated image of the first matching row; ids are the table's primary
key. -/
def updateUser (st : Store) (id : Nat) (upd : UpdatePayload) :
    Except JsError (Obj × Store) :=
  match findById st id with
  | none => .error userNotFoundErr
  | some u0 =>
    if upd.name.isNone && upd.email.isNone && upd.role.isNone then
      match getUserById st id with
      | .ok o => .ok (o, st)
      | .error e => .error e
    else
      let st' := st.map (fun u => if u.id == id then applyUpdate u upd else u)
      .ok (userDTO (applyUpdate u0 upd), st')

/-- deleteUser (users.service.js lines 126-151): delete the rows whose
id column equals the given id, take the first returned id; when nothing
was deleted throw the USER_NOT_FOUND error, otherwise return the deleted
id. -/
def deleteUser (st : Store) (id : Nat) : Except JsError (Nat × Store) :=
  match findById st id with
  | none => .error userNotFoundErr
  | some d => .ok (d.id, st.filter (fun u => !(u.id == id)))

end UsersService

/-- The zod rule for an update name: z.string().min(2).max(255)
(the trailing trim is a transform applied after these checks). -/
def nameOk (s : String) : Bool :=
  2 ≤ s.length && s.length ≤ 255

/-- The zod rule for an update email:
z.string().email().max(255) (toLowerCase and trim are transforms applied
after these checks); emailFmt is the library's email-format check, an
external collaborator. -/
def emailRuleOk (emailFmt : String → Bool) (s : String) : Bool :=
  emailFmt s && s.length ≤ 255

/-- The zod rule for an update role: z.enum of user and admin. -/
def roleOk (s : String) : Bool :=
  s == "user" || s == "admin"

/-- updateUserSchema (users.validation.js lines 10-25): each of the three
optional fields must satisfy its rule when supplied, and the refine
requires at least one of name/email/role to be supplied. -/
def updateUserSchemaAccepts (emailFmt : String → Bool)
    (p : UpdatePayload) : Bool :=
  p.name.all nameOk
    && p.email.all (emailRuleOk emailFmt)
    && p.role.all roleOk
    && (p.name.isSome || p.email.isSome || p.role.isSome)

/-- The acceptance condition as the specification words it: every
supplied field satisfies its rule (name length 2-255, email in valid
format and at most 255 characters, role among user and admin), and at
least one of name/email/role is supplied. -/
def specAccepts (emailFmt : String → Bool) (p : UpdatePayload) : Prop :=
  (∀ s, p.name = some s → 2 ≤ s.length ∧ s.length ≤ 255) ∧
  (∀ s, p.email = some s → emailFmt s = true ∧ s.length ≤ 255) ∧
  (∀ s, p.role = some s → (s = "user" ∨ s = "admin")) ∧
  (p.name ≠ none ∨ p.email ≠ none ∨ p.role ≠ none)

/-- The authenticated principal attached to the request by the auth
middleware (req.user): its id and role claims. -/
structure Actor where
  id : Nat
  role : String
deriving DecidableEq, Repr

namespace UsersController

/-- Outcome of a users controller request: 400 validation error, 401
authentication required, 403 with the forbidden message, 200 with a user
DTO (update), 200 with the deleted id (delete), 404 user not found, or
an error forwarded via next(err). -/
inductive Outcome where
  | validationError
  | unauthenticated
  | forbidden (msg : String)
  | okUser (user : Obj)
  | okDeleted (userId : Nat)
  | notFound
  | forwarded (e : JsError)
deriving DecidableEq, Repr

/-- Whether an outcome is the 403 Forbidden response. -/
def Outcome.isForbidden : Outcome → Bool
  | .forbidden _ => true
  | _ => false

/-- updateUser controller (users.controller.js lines 61-129), with the
route id already coerced by userIdSchema: validate the body against
updateUserSchema (400 on failure); require an authenticated actor (401);
403 unless the actor is the target or an admin; 403 when the payload
carries role and the actor is not an admin; then call the update service,
mapping its USER_NOT_FOUND error to 404 and forwarding anything else. -/
def updateUser (emailFmt : String → Bool) (actor : Option Actor)
    (targetId : Nat) (body : UpdatePayload) (st : Store) :
    Outcome × Store :=
  if !(updateUserSchemaAccepts emailFmt body) then (.validationError, st)
  else
    match actor with
    | none => (.unauthenticated, st)
    | some a =>
      let isSelf := a.id == targetId
      let isAdmin := a.role == "admin"
      if !isSelf && !isAdmin then
        (.forbidden "You are not allowed to update this user", st)
      else if body.role.isSome && !isAdmin then
        (.forbidden "Only admin users can change user roles", st)
      else
        match UsersService.updateUser st targetId body with
        | .ok (user, st') => (.okUser user, st')
        | .error e =>
          if e.code == some "USER_NOT_FOUND"
              || e.message == "User not found" then (.notFound, st)
          else (.forwarded e, st)

/-- deleteUser controller (users.controller.js lines 132-179), with the
route id already coerced by userIdSchema: require an authenticated actor
(401); 403 unless the actor is the target or an admin; then call the
delete service, mapping its USER_NOT_FOUND error to 404 and forwarding
anything else. -/
def deleteUser (actor : Option Actor) (targetId : Nat) (st : Store) :
    Outcome × Store :=
  match actor with
  | none => (.unauthenticated, st)
  | some a =>
    let isSelf := a.id == targetId
    let isAdmin := a.role == "admin"
    if !isSelf && !isAdmin then
      (.forbidden "You are not allowed to delete this user", st)
    else
      match UsersService.deleteUser st targetId with
      | .ok (i, st') => (.okDeleted i, st')
      | .error e =>
        if e.code == some "USER_NOT_FOUND"
            || e.message == "User not found" then (.notFound, st)
        else (.forwarded e, st)

end UsersController

/-- The claims payload signed into the session token
(auth.controller.js: id, email, role). -/
structure JwtPayload where
  id : Nat
  email : String
  role : String
deriving DecidableEq, Repr

/-- A symbolic model of a signed JWT produced by the jsonwebtoken
library: the embedded claims, the secret the token was signed with, and
the issued-at and expiry instants (seconds). Signature validity is
modelled symbolically: a token verifies under a secret exactly when it
was built with that same secret. -/
structure Token where
  payload : JwtPayload
  secret : String
  iat : Nat
  exp : Nat
deriving DecidableEq, Repr

/-- The token lifetime: EXPIRES_IN is the string 1d, i.e. 86400
seconds. -/
def expiresInSeconds : Nat := 86400

/-- jwt.sign(payload, secret, expiresIn): symbolic model of the library
primitive - wrap the claims with the signing secret and the expiry
window starting now. -/
def jwtLibSign (secret : String) (now : Nat) (p : JwtPayload) : Token :=
  ⟨p, secret, now, now + expiresInSeconds⟩

/-- jwt.verify(token, secret): symbolic model of the library primitive -
succeed with the embedded claims exactly when the token was signed with
this secret and has not reached its expiry instant. -/
def jwtLibVerify (secret : String) (now : Nat) (t : Token) :
    Except JsError JwtPayload :=
  if t.secret == secret && now < t.exp then .ok t.payload
  else .error ⟨"jwt library verification failure", none⟩

namespace Jwttoken

/-- jwttoken.sign (src/utils/jwt.js): sign the payload with the
process-configured SECRET_KEY and the fixed 1d expiry. -/
def sign (secretKey : String) (now : Nat) (p : JwtPayload) : Token :=
  jwtLibSign secretKey now p

/-- jwttoken.verify (src/utils/jwt.js): verify against the same
SECRET_KEY, replacing any library failure by
Error('Invalid or expired JWT token'). -/
def verify (secretKey : String) (now : Nat) (t : Token) :
    Except JsError JwtPayload :=
  match jwtLibVerify secretKey now t with
  | .ok c => .ok c
  | .error _ => .error ⟨"Invalid or expired JWT token", none⟩

end Jwttoken

/-! Concrete sample data used to evaluate the model at specific inputs. -/

/-- A sample stored row: Ann, with the hash of the password secret1. -/
def annRow : UserRow :=
  ⟨1, "Ann", "a@x.com", "h-secret1", "user", 0, 0⟩

/-- A sample bcrypt.hash collaborator. -/
def exHash : String → String :=
  fun s => String.append "h-" s

/-- The bcrypt.compare collaborator matching exHash. -/
def exCmp : String → String → Bool :=
  fun p h => String.append "h-" p == h

/-- A sample zod email-format collaborator: the string mentions an at
sign. -/
def exEmailFmt : String → Bool :=
  fun s => s.any (fun c => c == '@')

/-- C1: the claim states that a sign-up whose email is already taken
fails with AlreadyExists and HTTP 409 and never surfaces as a generic
failure. The code violates this: the catch block of createUser
(auth.service.js lines 38-41) replaces the duplicate-email error by a
generic Error with message Failed to create user, so the signup
controller's 409 branch (which matches the original message) never
fires and the request is forwarded to the global handler as an
unclassified 500. This theorem evaluates the pipeline at the failing
input: a second sign-up with Ann's email. -/
theorem c1_duplicate_email_signup_surfaces_generic :
    AuthController.signup exHash 2 [annRow] ⟨"Bob", "a@x.com", "pw12345", none⟩
      = (.forwarded ⟨"Failed to create user", none⟩, [annRow]) ∧
    (AuthController.signup exHash 2 [annRow]
        ⟨"Bob", "a@x.com", "pw12345", none⟩).1.status = 500 := by
  constructor <;> rfl

/-- C2: a sign-in whose email matches no user and a sign-in whose
password comparison fails produce the identical outcome - the same
error (message Invalid email or password, code INVALID_CREDENTIALS)
from the service, and the same 401 response from the controller - so a
caller cannot distinguish which check failed. -/
theorem c2_signin_failures_indistinguishable
    (cmp : String → String → Bool) (st : Store) (e p : String) :
    (findByEmail st e = none →
      AuthService.signIn cmp st e p = .error invalidCredentialsErr ∧
      AuthController.signIn cmp st e p = .invalidCredentials) ∧
    (∀ u, findByEmail st e = some u → cmp p u.password = false →
      AuthService.signIn cmp st e p = .error invalidCredentialsErr ∧
      AuthController.signIn cmp st e p = .invalidCredentials) := by
  constructor
  · intro h
    have hs : AuthService.signIn cmp st e p = .error invalidCredentialsErr := by
      simp [AuthService.signIn, AuthService.signInBody, h, invalidCredentialsErr]
    exact ⟨hs, by simp [AuthController.signIn, hs, invalidCredentialsErr]⟩
  · intro u hu hc
    have hs : AuthService.signIn cmp st e p = .error invalidCredentialsErr := by
      simp [AuthService.signIn, AuthService.signInBody, hu, hc, invalidCredentialsErr]
    exact ⟨hs, by simp [AuthController.signIn, hs, invalidCredentialsErr]⟩

/-- C2 witness: concrete store containing only Ann; a sign-in with an
unknown email and a sign-in with Ann's email but a wrong password. -/
theorem c2_signin_failures_indistinguishable_witness :
    (AuthService.signIn exCmp [annRow] "b@x.com" "whatever"
        = .error invalidCredentialsErr ∧
      AuthController.signIn exCmp [annRow] "b@x.com" "whatever"
        = .invalidCredentials) ∧
    (AuthService.signIn exCmp [annRow] "a@x.com" "wrongpw"
        = .error invalidCredentialsErr ∧
      AuthController.signIn exCmp [annRow] "a@x.com" "wrongpw"
        = .invalidCredentials) :=
  ⟨(c2_signin_failures_indistinguishable exCmp [annRow] "b@x.com" "whatever").1
      (by decide),
   (c2_signin_failures_indistinguishable exCmp [annRow] "a@x.com" "wrongpw").2
      annRow (by decide) (by decide)⟩

/-- C9: a sign-up payload with the role field absent creates the user
with role user: the default parameter of createUser
(auth.service.js line 16) fills role with the string user, which is
both stored in the inserted row and returned in the DTO. -/
theorem c9_absent_role_defaults_to_user (hash : String → String)
    (fresh : Nat) (st : Store) (name email password : String)
    (h : findByEmail st email = none) :
    AuthService.createUser hash fresh st ⟨name, email, password, none⟩ =
      .ok ([("id", .num fresh), ("name", .str name),
            ("email", .str email), ("role", .str "user")],
           st ++ [⟨fresh, name, email, hash password, "user", 0, 0⟩]) := by
  simp [AuthService.createUser, AuthService.createUserBody, h]

/-- C9 witness: signing up Ann with no role field into the empty store
creates her with role user. -/
theorem c9_absent_role_defaults_to_user_witness :
    AuthService.createUser exHash 1 [] ⟨"Ann", "a@x.com", "secret1", none⟩ =
      .ok ([("id", .num 1), ("name", .str "Ann"),
            ("email", .str "a@x.com"), ("role", .str "user")],
           [⟨1, "Ann", "a@x.com", exHash "secret1", "user", 0, 0⟩]) :=
  c9_absent_role_defaults_to_user exHash 1 [] "Ann" "a@x.com" "secret1" rfl

/-- Whether a serialized object carries no password key. -/
def objNoPassword (o : Obj) : Bool :=
  o.all (fun kv => kv.1 != "password")

/-- objNoPassword lifted through a fallible result. -/
def okNoPassword (r : Except JsError Obj) : Bool :=
  match r with
  | .error _ => true
  | .ok o => objNoPassword o

/-- objNoPassword lifted through a fallible result that also returns the
updated store. -/
def okPairNoPassword (r : Except JsError (Obj × Store)) : Bool :=
  match r with
  | .error _ => true
  | .ok (o, _) => objNoPassword o

/-- The six-column DTO never carries a password key. -/
theorem userDTO_noPassword (u : UserRow) : objNoPassword (userDTO u) = true :=
  rfl

/-- C3: every successful user-returning operation - sign-up, sign-in,
list, get-by-id, update - returns a DTO with no password field and no
password hash: the sign-up DTO is the four-column returning clause, the
sign-in DTO drops the password by rest-spread, and the users service
selects only the six non-password columns. -/
theorem c3_no_operation_returns_password (hash : String → String)
    (cmp : String → String → Bool) (fresh : Nat) (st : Store)
    (inp : SignupInput) (e p : String) (id : Nat) (upd : UpdatePayload) :
    okPairNoPassword (AuthService.createUser hash fresh st inp) = true ∧
    okNoPassword (AuthService.signIn cmp st e p) = true ∧
    (UsersService.getAllUsers st).all objNoPassword = true ∧
    okNoPassword (UsersService.getUserById st id) = true ∧
    okPairNoPassword (UsersService.updateUser st id upd) = true := by
  refine ⟨?_, ?_, ?_, ?_, ?_⟩
  · cases h : findByEmail st inp.email <;>
      simp [AuthService.createUser, AuthService.createUserBody, h,
        okPairNoPassword, objNoPassword]
  · cases h : findByEmail st e with
    | none =>
      simp [AuthService.signIn, AuthService.signInBody, h,
        invalidCredentialsErr, okNoPassword]
    | some u =>
      cases hc : cmp p u.password <;>
        simp [AuthService.signIn, AuthService.signInBody, h, hc,
          invalidCredentialsErr, okNoPassword, userDTO_noPassword]
  · simp [UsersService.getAllUsers, List.all_map]
    intro u _
    exact userDTO_noPassword u
  · cases h : findById st id <;>
      simp [UsersService.getUserById, h, okNoPassword, userDTO_noPassword]
  · cases h : findById st id with
    | none => simp [UsersService.updateUser, h, okPairNoPassword]
    | some u0 =>
      cases hn : (upd.name.isNone && upd.email.isNone && upd.role.isNone) <;>
        simp [UsersService.updateUser, UsersService.getUserById, h, hn,
          okPairNoPassword, okNoPassword, userDTO_noPassword]

/-- C4: an update whose (valid) payload carries the role field, issued
by an actor who is not an admin - the target user themselves included -
is answered 403 Forbidden and the store is left untouched: either the
self-or-admin gate or the only-admins-change-roles gate fires before the
service is called. -/
theorem c4_role_change_requires_admin (emailFmt : String → Bool)
    (a : Actor) (targetId : Nat) (body : UpdatePayload) (st : Store)
    (hv : updateUserSchemaAccepts emailFmt body = true)
    (hrole : body.role.isSome = true)
    (hadmin : a.role ≠ "admin") :
    (UsersController.updateUser emailFmt (some a) targetId body st).1.isForbidden
        = true ∧
    (UsersController.updateUser emailFmt (some a) targetId body st).2 = st := by
  have hA : (a.role == "admin") = false := beq_eq_false_iff_ne.mpr hadmin
  cases hself : (a.id == targetId) <;>
    simp [UsersController.updateUser, hv, hself, hA, hrole,
      UsersController.Outcome.isForbidden]

/-- C4 witness: the spec's example - actor id 5 with role user patching
their own record with role admin - is forbidden and the store is
unchanged. -/
theorem c4_role_change_requires_admin_witness :
    updateUserSchemaAccepts exEmailFmt ⟨none, none, some "admin"⟩ = true ∧
    (UsersController.updateUser exEmailFmt (some ⟨5, "user"⟩) 5
        ⟨none, none, some "admin"⟩ [annRow]).1.isForbidden = true ∧
    (UsersController.updateUser exEmailFmt (some ⟨5, "user"⟩) 5
        ⟨none, none, some "admin"⟩ [annRow]).2 = [annRow] := by
  refine ⟨by decide, ?_, ?_⟩
  · exact (c4_role_change_requires_admin exEmailFmt ⟨5, "user"⟩ 5
      ⟨none, none, some "admin"⟩ [annRow] (by decide) (by decide) (by decide)).1
  · exact (c4_role_change_requires_admin exEmailFmt ⟨5, "user"⟩ 5
      ⟨none, none, some "admin"⟩ [annRow] (by decide) (by decide) (by decide)).2

/-- C5: an actor who is neither the target user nor an admin gets 403
Forbidden from both the update and the delete controller, with the store
untouched and the service never invoked (the self-or-admin gate precedes
the service call in both controllers). For update the payload must first
pass the schema gate, or the request dies earlier with 400. -/
theorem c5_non_self_non_admin_forbidden (emailFmt : String → Bool)
    (a : Actor) (targetId : Nat) (body : UpdatePayload) (st : Store)
    (hne : a.id ≠ targetId) (hadmin : a.role ≠ "admin") :
    (updateUserSchemaAccepts emailFmt body = true →
      UsersController.updateUser emailFmt (some a) targetId body st
        = (.forbidden "You are not allowed to update this user", st)) ∧
    UsersController.deleteUser (some a) targetId st
      = (.forbidden "You are not allowed to delete this user", st) := by
  have hS : (a.id == targetId) = false := beq_eq_false_iff_ne.mpr hne
  have hA : (a.role == "admin") = false := beq_eq_false_iff_ne.mpr hadmin
  constructor
  · intro hv
    simp [UsersController.updateUser, hv, hS, hA]
  · simp [UsersController.deleteUser, hS, hA]

/-- C5 witness: actor id 2 with role user against target id 1: both the
update (with a valid name-only payload) and the delete are forbidden
with the store unchanged. -/
theorem c5_non_self_non_admin_forbidden_witness :
    UsersController.updateUser exEmailFmt (some ⟨2, "user"⟩) 1
        ⟨some "Bob", none, none⟩ [annRow]
      = (.forbidden "You are not allowed to update this user", [annRow]) ∧
    UsersController.deleteUser (some ⟨2, "user"⟩) 1 [annRow]
      = (.forbidden "You are not allowed to delete this user", [annRow]) :=
  ⟨(c5_non_self_non_admin_forbidden exEmailFmt ⟨2, "user"⟩ 1
      ⟨some "Bob", none, none⟩ [annRow] (by decide) (by decide)).1 (by decide),
   (c5_non_self_non_admin_forbidden exEmailFmt ⟨2, "user"⟩ 1
      ⟨some "Bob", none, none⟩ [annRow] (by decide) (by decide)).2⟩

/-- C6: updating an existing user with a partial that carries none of
the recognized name/email/role fields succeeds with the current record
unchanged - the service re-fetches the row via getUserById and returns
it, leaving the store as it was; no error is raised. -/
theorem c6_noop_update_returns_current_record (st : Store) (id : Nat)
    (u : UserRow) (h : findById st id = some u) :
    UsersService.updateUser st id ⟨none, none, none⟩ = .ok (userDTO u, st) := by
  simp [UsersService.updateUser, UsersService.getUserById, h]

/-- C6 witness: a no-field update of Ann returns her unchanged DTO and
the unchanged store. -/
theorem c6_noop_update_returns_current_record_witness :
    UsersService.updateUser [annRow] 1 ⟨none, none, none⟩
      = .ok (userDTO annRow, [annRow]) :=
  c6_noop_update_returns_current_record [annRow] 1 annRow rfl

/-- Removing every row with a given id leaves no row with that id to be
found. -/
theorem findById_filter_ne (st : Store) (id : Nat) :
    findById (st.filter (fun u => !(u.id == id))) id = none := by
  unfold findById
  rw [List.find?_eq_none]
  intro x hx
  have hpred := (List.mem_filter.mp hx).2
  simpa using hpred

/-- C7: deleting an id with no matching user fails with the
USER_NOT_FOUND error; deleting an existing id returns that id and
removes the row, so that a subsequent getUserById on the same id fails
with the USER_NOT_FOUND error. -/
theorem c7_delete_semantics (st : Store) (id : Nat) :
    (findById st id = none →
      UsersService.deleteUser st id = .error userNotFoundErr) ∧
    (∀ d, findById st id = some d →
      UsersService.deleteUser st id
        = .ok (id, st.filter (fun u => !(u.id == id))) ∧
      UsersService.getUserById (st.filter (fun u => !(u.id == id))) id
        = .error userNotFoundErr) := by
  constructor
  · intro h
    simp [UsersService.deleteUser, h]
  · intro d hd
    have hd' : st.find? (fun u => u.id == id) = some d := hd
    have hbeq : (d.id == id) = true := by simpa using List.find?_some hd'
    have hid : d.id = id := by simpa using hbeq
    constructor
    · simp [UsersService.deleteUser, hd, hid]
    · simp [UsersService.getUserById, findById_filter_ne]

/-- C7 witness: on the store holding only Ann (id 1), deleting id 2
fails with USER_NOT_FOUND; deleting id 1 returns 1 and empties the
store, after which getUserById 1 fails with USER_NOT_FOUND. -/
theorem c7_delete_semantics_witness :
    UsersService.deleteUser [annRow] 2 = .error userNotFoundErr ∧
    (UsersService.deleteUser [annRow] 1 = .ok (1, []) ∧
      UsersService.getUserById [] 1 = .error userNotFoundErr) :=
  ⟨(c7_delete_semantics [annRow] 2).1 rfl,
   (c7_delete_semantics [annRow] 1).2 annRow rfl⟩

/-- C8: the update-payload validator accepts a payload exactly when
every supplied field satisfies its rule (name length 2-255, email
passing the format check and at most 255 characters, role among user
and admin) and at least one of name/email/role is supplied; and a
payload supplying none of them is answered with the 400 validation
error by the update controller, whatever the actor and store. -/
theorem c8_update_schema_characterisation (emailFmt : String → Bool)
    (p : UpdatePayload) :
    (updateUserSchemaAccepts emailFmt p = true ↔ specAccepts emailFmt p) ∧
    (∀ a targetId st,
      UsersController.updateUser emailFmt a targetId ⟨none, none, none⟩ st
        = (.validationError, st)) := by
  constructor
  · rcases p with ⟨n, e, r⟩
    cases n <;> cases e <;> cases r <;>
      simp [updateUserSchemaAccepts, specAccepts, nameOk, emailRuleOk,
        roleOk, and_assoc]
  · intro a targetId st
    rfl

/-- C10: a token signed by jwttoken.sign verifies under the same secret
at any instant before its 24-hour expiry and yields the original claims,
while jwttoken.verify rejects any token not signed with that secret, and
any token at or past its expiry instant, with the
invalid-or-expired-token error. The jsonwebtoken library is modelled
symbolically: signature validity is identity of the signing secret. -/
theorem c10_jwt_sign_verify (secretKey : String) (p : JwtPayload)
    (t0 t1 : Nat) :
    (t1 < t0 + expiresInSeconds →
      Jwttoken.verify secretKey t1 (Jwttoken.sign secretKey t0 p) = .ok p) ∧
    (∀ tok : Token, (tok.secret ≠ secretKey ∨ tok.exp ≤ t1) →
      Jwttoken.verify secretKey t1 tok
        = .error ⟨"Invalid or expired JWT token", none⟩) := by
  constructor
  · intro h
    simp [Jwttoken.verify, Jwttoken.sign, jwtLibSign, jwtLibVerify, h]
  · intro tok htok
    rcases htok with hsec | hexp
    · have hS : (tok.secret == secretKey) = false := beq_eq_false_iff_ne.mpr hsec
      simp [Jwttoken.verify, jwtLibVerify, hS]
    · have hT : ¬ (t1 < tok.exp) := not_lt.mpr hexp
      simp [Jwttoken.verify, jwtLibVerify, hT]

/-- C10 witness: under secret k, a token signed at instant 0 verifies at
instant 86399 with its original claims; a token carrying another secret
is rejected; the signed token itself is rejected at instant 86400. -/
theorem c10_jwt_sign_verify_witness :
    Jwttoken.verify "k" 86399 (Jwttoken.sign "k" 0 ⟨1, "a@x.com", "user"⟩)
      = .ok ⟨1, "a@x.com", "user"⟩ ∧
    Jwttoken.verify "k" 0 ⟨⟨1, "a@x.com", "user"⟩, "other", 0, 86400⟩
      = .error ⟨"Invalid or expired JWT token", none⟩ ∧
    Jwttoken.verify "k" 86400 (Jwttoken.sign "k" 0 ⟨1, "a@x.com", "user"⟩)
      = .error ⟨"Invalid or expired JWT token", none⟩ :=
  ⟨(c10_jwt_sign_verify "k" ⟨1, "a@x.com", "user"⟩ 0 86399).1 (by decide),
   (c10_jwt_sign_verify "k" ⟨1, "a@x.com", "user"⟩ 0 0).2
      ⟨⟨1, "a@x.com", "user"⟩, "other", 0, 86400⟩ (.inl (by decide)),
   (c10_jwt_sign_verify "k" ⟨1, "a@x.com", "user"⟩ 0 86400).2
      (Jwttoken.sign "k" 0 ⟨1, "a@x.com", "user"⟩) (.inr (by decide))⟩

end Acq
